import Mathlib

/-!
Verification model of the AeroSense dashboard core: the search filter,
the selection coordinator and view-transition state machine of the
`Dashboard` component, and the fetch/fallback data store of the
`LeafletMap` component.  Each definition is a shallow embedding of the
corresponding TypeScript source.
-/

/-- A record of the static city list that the dashboard search filters
(`topCities`); the rendered fields are the name, the AQI value and the
quality label. -/
structure CityRecord where
  name : String
  aqi : Nat
  quality : String
deriving DecidableEq

/-- `beginsWith n h` is true when the list `n` is an initial segment of
`h`: the one-position check underlying JavaScript `String.includes`. -/
def beginsWith : List Char → List Char → Bool
  | [], _ => true
  | _ :: _, [] => false
  | a :: as, b :: bs => a == b && beginsWith as bs

/-- `listIncludes h n` models JavaScript `h.includes(n)`: `n` occurs as a
contiguous substring of `h` (always true for an empty `n`). -/
def listIncludes : List Char → List Char → Bool
  | [], n => n.isEmpty
  | b :: t, n => beginsWith n (b :: t) || listIncludes t n

/-- The character list of `s` lower-cased: models `s.toLowerCase()`. -/
def lowerStr (s : String) : List Char := s.data.map Char.toLower

/-- The search filter of `Dashboard` (part_000, lines 54-56):
`cities.filter(city => city.name.toLowerCase().includes(searchQuery.toLowerCase()))`. -/
def filteredCities (cities : List CityRecord) (searchQuery : String) : List CityRecord :=
  cities.filter fun city => listIncludes (lowerStr city.name) (lowerStr searchQuery)

lemma beginsWith_iff (n h : List Char) :
    beginsWith n h = true ↔ ∃ r, h = n ++ r := by
  induction n generalizing h with
  | nil => simp [beginsWith]
  | cons a as ih =>
    cases h with
    | nil => simp [beginsWith]
    | cons b bs =>
      simp only [beginsWith, Bool.and_eq_true, beq_iff_eq, ih, List.cons_append]
      constructor
      · rintro ⟨rfl, r, rfl⟩
        exact ⟨r, rfl⟩
      · rintro ⟨r, h⟩
        obtain ⟨rfl, rfl⟩ := List.cons.inj h
        exact ⟨rfl, r, rfl⟩

lemma listIncludes_iff (h n : List Char) :
    listIncludes h n = true ↔ ∃ l r, h = l ++ n ++ r := by
  induction h with
  | nil =>
    simp only [listIncludes, List.isEmpty_iff]
    constructor
    · rintro rfl
      exact ⟨[], [], rfl⟩
    · rintro ⟨l, r, h⟩
      rcases List.append_eq_nil.mp h.symm with ⟨h1, h2⟩
      exact (List.append_eq_nil.mp h1).2
  | cons b t ih =>
    simp only [listIncludes, Bool.or_eq_true, beginsWith_iff, ih]
    constructor
    · rintro (⟨r, hr⟩ | ⟨l, r, hr⟩)
      · exact ⟨[], r, by simpa using hr⟩
      · exact ⟨b :: l, r, by simp [hr]⟩
    · rintro ⟨l, r, hr⟩
      cases l with
      | nil => exact Or.inl ⟨r, by simpa using hr⟩
      | cons c l =>
        obtain ⟨rfl, rfl⟩ := List.cons.inj hr
        exact Or.inr ⟨l, r, rfl⟩

lemma listIncludes_nil_needle (h : List Char) : listIncludes h [] = true := by
  cases h <;> simp [listIncludes, beginsWith]

/-- C6: for every dataset and non-empty query, the filter result is a
sublist of the dataset (order preserved), contains exactly the records
whose lower-cased name has the lower-cased query as a contiguous
substring, and is idempotent. -/
theorem filteredCities_spec (D : List CityRecord) (q : String) (hq : q ≠ "") :
    List.Sublist (filteredCities D q) D
    ∧ (∀ c, c ∈ filteredCities D q ↔
        c ∈ D ∧ ∃ l r, lowerStr c.name = l ++ lowerStr q ++ r)
    ∧ filteredCities (filteredCities D q) q = filteredCities D q := by
  refine ⟨List.filter_sublist _, fun c => ?_, ?_⟩
  · simp [filteredCities, List.mem_filter, listIncludes_iff]
  · simp [filteredCities, List.filter_filter]

/-- The Delhi record of the end-to-end example. -/
def delhiR : CityRecord := { name := "Delhi", aqi := 168, quality := "Unhealthy" }

/-- The Mumbai record of the end-to-end example. -/
def mumbaiR : CityRecord := { name := "Mumbai", aqi := 95, quality := "Moderate" }

/-- Witness for C6 at the spec's example dataset and query "de". -/
theorem filteredCities_spec_witness :
    List.Sublist (filteredCities [delhiR, mumbaiR] "de") [delhiR, mumbaiR]
    ∧ (∀ c, c ∈ filteredCities [delhiR, mumbaiR] "de" ↔
        c ∈ [delhiR, mumbaiR] ∧ ∃ l r, lowerStr c.name = l ++ lowerStr "de" ++ r)
    ∧ filteredCities (filteredCities [delhiR, mumbaiR] "de") "de"
        = filteredCities [delhiR, mumbaiR] "de" :=
  filteredCities_spec [delhiR, mumbaiR] "de" (by decide)

/-- C1 counterexample: filtering a one-record dataset with the empty
query does not return the empty list (JS `includes("")` is always true). -/
theorem filteredCities_empty_query_cex : filteredCities [delhiR] "" ≠ [] := by decide

/-- The state of the `Dashboard` component (part_000, lines 25-31).
The AQI-detail payload type is a parameter `A`, since the claims hold
for every lookup function `getAQIData : String → A`. -/
structure DashState (A : Type) where
  activeView : String
  selectedCity : String
  aqiData : A
  searchQuery : String
  showSearchResults : Bool
  isLoading : Bool
  targetView : String

/-- `handleCityChange` (part_000, lines 33-38): the single selection
entry point shared by map markers, the dropdown and search results. -/
def handleCityChange {A : Type} (getAQIData : String → A) (city : String)
    (s : DashState A) : DashState A :=
  { s with selectedCity := city, aqiData := getAQIData city,
           searchQuery := "", showSearchResults := false }

/-- `handleViewChange` (part_000, lines 40-47); the `window.scrollTo`
side effect is outside the state and omitted. -/
def handleViewChange {A : Type} (view : String) (s : DashState A) : DashState A :=
  if view ≠ s.activeView then { s with targetView := view, isLoading := true } else s

/-- `handleLoadingComplete` (part_000, lines 49-52). -/
def handleLoadingComplete {A : Type} (s : DashState A) : DashState A :=
  { s with activeView := s.targetView, isLoading := false }

/-- The search box `onChange` handler (part_000, lines 138-141). -/
def handleSearchInput {A : Type} (q : String) (s : DashState A) : DashState A :=
  { s with searchQuery := q, showSearchResults := decide (q.length > 0) }

/-- The search box `onFocus` handler (part_000, line 142). -/
def handleSearchFocus {A : Type} (s : DashState A) : DashState A :=
  { s with showSearchResults := decide (s.searchQuery.length > 0) }

/-- The initial `Dashboard` state (part_000, lines 25-31): view
`dashboard`, the user's city selected, search empty and not loading. -/
def initState {A : Type} (getAQIData : String → A) (userCity : String) : DashState A :=
  { activeView := "dashboard", selectedCity := userCity,
    aqiData := getAQIData userCity, searchQuery := "",
    showSearchResults := false, isLoading := false, targetView := "dashboard" }

/-- The events that mutate the `Dashboard` state. -/
inductive DashEvent where
  | cityChange (city : String)
  | viewChange (view : String)
  | loadingComplete
  | searchInput (q : String)
  | searchFocus

/-- One step of the `Dashboard` state machine. -/
def dashStep {A : Type} (getAQIData : String → A) :
    DashEvent → DashState A → DashState A
  | .cityChange c, s => handleCityChange getAQIData c s
  | .viewChange v, s => handleViewChange v s
  | .loadingComplete, s => handleLoadingComplete s
  | .searchInput q, s => handleSearchInput q s
  | .searchFocus, s => handleSearchFocus s

/-- The states the `Dashboard` can reach from some initial state. -/
inductive Reachable {A : Type} (getAQIData : String → A) : DashState A → Prop
  | init (userCity : String) : Reachable getAQIData (initState getAQIData userCity)
  | step (e : DashEvent) {s : DashState A} :
      Reachable getAQIData s → Reachable getAQIData (dashStep getAQIData e s)

/-- A constant detail-lookup used to instantiate witnesses. -/
def g0 : String → Nat := fun _ => 0

/-- C4: `handleCityChange` sets the selected city unconditionally, with
no validation against any dataset. -/
theorem handleCityChange_selects {A : Type} (getAQIData : String → A)
    (city : String) (s : DashState A) :
    (handleCityChange getAQIData city s).selectedCity = city := rfl

/-- C5: `handleCityChange` clears the search query and hides the search
results, regardless of the prior search state. -/
theorem handleCityChange_clears_search {A : Type} (getAQIData : String → A)
    (city : String) (s : DashState A) :
    (handleCityChange getAQIData city s).searchQuery = ""
    ∧ (handleCityChange getAQIData city s).showSearchResults = false :=
  ⟨rfl, rfl⟩

/-- C7: from an idle state, requesting the already-active view is a
no-op, and requesting a different view enters the transitioning state
with the active view kept and the target set. -/
theorem handleViewChange_idle {A : Type} (s : DashState A) (v : String)
    (h : s.isLoading = false) :
    (v = s.activeView → handleViewChange v s = s)
    ∧ (v ≠ s.activeView →
        (handleViewChange v s).isLoading = true
        ∧ (handleViewChange v s).activeView = s.activeView
        ∧ (handleViewChange v s).targetView = v) := by
  constructor
  · intro hv
    simp [handleViewChange, hv]
  · intro hv
    simp [handleViewChange, hv]

/-- Witness for C7 at the initial state and target view `analytics`. -/
theorem handleViewChange_idle_witness :
    ("analytics" = (initState g0 "Delhi").activeView →
        handleViewChange "analytics" (initState g0 "Delhi") = initState g0 "Delhi")
    ∧ ("analytics" ≠ (initState g0 "Delhi").activeView →
        (handleViewChange "analytics" (initState g0 "Delhi")).isLoading = true
        ∧ (handleViewChange "analytics" (initState g0 "Delhi")).activeView
            = (initState g0 "Delhi").activeView
        ∧ (handleViewChange "analytics" (initState g0 "Delhi")).targetView
            = "analytics") :=
  handleViewChange_idle (initState g0 "Delhi") "analytics" rfl

/-- On every reachable idle state, the active and target views agree. -/
lemma reachable_idle_eq {A : Type} (getAQIData : String → A) (s : DashState A)
    (hr : Reachable getAQIData s) : s.isLoading = false → s.activeView = s.targetView := by
  induction hr with
  | init userCity => intro _; rfl
  | step e s ih =>
    cases e with
    | cityChange c => simpa [dashStep, handleCityChange] using ih
    | viewChange v =>
      by_cases hv : v = (‹DashState A›).activeView
      · simpa [dashStep, handleViewChange, hv] using ih
      · simp [dashStep, handleViewChange, hv]
    | loadingComplete => simp [dashStep, handleLoadingComplete]
    | searchInput q => simpa [dashStep, handleSearchInput] using ih
    | searchFocus => simpa [dashStep, handleSearchFocus] using ih

/-- C8: on any reachable state, `handleLoadingComplete` ends not
loading with the pending target promoted to the active view; called
while idle it leaves the state unchanged. -/
theorem handleLoadingComplete_spec {A : Type} (getAQIData : String → A)
    (s : DashState A) (hr : Reachable getAQIData s) :
    ((handleLoadingComplete s).isLoading = false
      ∧ (handleLoadingComplete s).activeView = s.targetView)
    ∧ (s.isLoading = false → handleLoadingComplete s = s) := by
  refine ⟨⟨rfl, rfl⟩, fun h => ?_⟩
  have hav := reachable_idle_eq getAQIData s hr h
  cases s
  simp_all [handleLoadingComplete]

/-- Witness for C8 at the reachable initial state, which is idle. -/
theorem handleLoadingComplete_spec_witness :
    handleLoadingComplete (initState g0 "Delhi") = initState g0 "Delhi" :=
  (handleLoadingComplete_spec g0 (initState g0 "Delhi") (Reachable.init "Delhi")).2 rfl

/-- C9: while transitioning, a request for a view different from the
active one overwrites the pending target (later request wins); a
request for the active view is ignored and the pending target kept. -/
theorem handleViewChange_transitioning {A : Type} (s : DashState A) (t : String)
    (h : s.isLoading = true) :
    (t ≠ s.activeView →
        (handleViewChange t s).targetView = t
        ∧ (handleViewChange t s).activeView = s.activeView
        ∧ (handleViewChange t s).isLoading = true)
    ∧ (t = s.activeView → handleViewChange t s = s) := by
  constructor
  · intro ht
    simp [handleViewChange, ht]
  · intro ht
    simp [handleViewChange, ht]

/-- Witness for C9 at the transitioning state reached by requesting
`analytics` from the initial state, with a new request for `weather`. -/
theorem handleViewChange_transitioning_witness :
    ("weather" ≠ (handleViewChange "analytics" (initState g0 "Delhi")).activeView →
        (handleViewChange "weather"
            (handleViewChange "analytics" (initState g0 "Delhi"))).targetView = "weather"
        ∧ (handleViewChange "weather"
            (handleViewChange "analytics" (initState g0 "Delhi"))).activeView
            = (handleViewChange "analytics" (initState g0 "Delhi")).activeView
        ∧ (handleViewChange "weather"
            (handleViewChange "analytics" (initState g0 "Delhi"))).isLoading = true)
    ∧ ("weather" = (handleViewChange "analytics" (initState g0 "Delhi")).activeView →
        handleViewChange "weather" (handleViewChange "analytics" (initState g0 "Delhi"))
            = handleViewChange "analytics" (initState g0 "Delhi")) :=
  handleViewChange_transitioning (handleViewChange "analytics" (initState g0 "Delhi"))
    "weather" (by decide)

/-- C10: on every reachable state, the detail-panel payload is exactly
`getAQIData` applied to the selected city, for any lookup function. -/
theorem aqiData_invariant {A : Type} (getAQIData : String → A) (s : DashState A)
    (hr : Reachable getAQIData s) : s.aqiData = getAQIData s.selectedCity := by
  induction hr with
  | init userCity => rfl
  | step e s ih =>
    cases e with
    | cityChange c => rfl
    | viewChange v =>
      by_cases hv : v = (‹DashState A›).activeView
      · simpa [dashStep, handleViewChange, hv] using ih
      · simpa [dashStep, handleViewChange, hv] using ih
    | loadingComplete => simpa [dashStep, handleLoadingComplete] using ih
    | searchInput q => simpa [dashStep, handleSearchInput] using ih
    | searchFocus => simpa [dashStep, handleSearchFocus] using ih

/-- Witness for C10 at the reachable initial state. -/
theorem aqiData_invariant_witness :
    (initState g0 "Delhi").aqiData = g0 (initState g0 "Delhi").selectedCity :=
  aqiData_invariant g0 (initState g0 "Delhi") (Reachable.init "Delhi")

/-- On every reachable state, an empty search query implies the
search-results dropdown flag is off. -/
lemma reachable_search_flag {A : Type} (getAQIData : String → A) (s : DashState A)
    (hr : Reachable getAQIData s) : s.searchQuery = "" → s.showSearchResults = false := by
  induction hr with
  | init userCity => intro _; rfl
  | step e s ih =>
    cases e with
    | cityChange c => intro _; rfl
    | viewChange v =>
      by_cases hv : v = (‹DashState A›).activeView
      · simpa [dashStep, handleViewChange, hv] using ih
      · simpa [dashStep, handleViewChange, hv] using ih
    | loadingComplete => simpa [dashStep, handleLoadingComplete] using ih
    | searchInput q =>
      simp only [dashStep, handleSearchInput]
      rintro rfl
      rfl
    | searchFocus =>
      simp only [dashStep, handleSearchFocus]
      intro hq
      simp [hq]

/-- C1 amended: the filter applied to the empty query returns the whole
dataset, and on every reachable state an empty query keeps the
search-results flag off, so an empty query never displays results. -/
theorem filteredCities_empty_query {A : Type} (getAQIData : String → A)
    (D : List CityRecord) (s : DashState A) (hr : Reachable getAQIData s) :
    filteredCities D "" = D
    ∧ (s.searchQuery = "" → s.showSearchResults = false) := by
  constructor
  · have : lowerStr "" = [] := rfl
    simp [filteredCities, this, listIncludes_nil_needle]
  · exact reachable_search_flag getAQIData s hr

/-- Witness for the amended C1 at the reachable initial state and the
example one-record dataset. -/
theorem filteredCities_empty_query_witness :
    filteredCities [delhiR] "" = [delhiR]
    ∧ ((initState g0 "Delhi").searchQuery = ""
        → (initState g0 "Delhi").showSearchResults = false) :=
  filteredCities_empty_query g0 [delhiR] (initState g0 "Delhi") (Reachable.init "Delhi")

/-- A city record of the `LeafletMap` dataset (`CityData` interface,
LeafletMap.tsx lines 15-31); numeric JS values are embedded exactly as
rationals. -/
structure CityData where
  name : String
  lat : Rat
  lng : Rat
  aqi : Nat
  quality : String
  pm25 : Rat
  pm10 : Rat
  o3 : Rat
  no2 : Rat
  so2 : Rat
  co : Rat
  temperature : Rat
  humidity : Rat
  lastUpdated : String
  source : String
deriving DecidableEq

/-- The hard-coded fallback dataset installed by the `catch` branch of
`fetchCitiesData` (LeafletMap.tsx lines 100-106); each record's
`lastUpdated` is the current time `now`. -/
def fallbackCities (now : String) : List CityData :=
  [ { name := "Delhi", lat := 28.6139, lng := 77.2090, aqi := 168,
      quality := "Unhealthy", pm25 := 101, pm10 := 134, o3 := 67, no2 := 50,
      so2 := 34, co := 17, temperature := 32, humidity := 65,
      lastUpdated := now, source := "Mock Data" },
    { name := "Mumbai", lat := 19.0760, lng := 72.8777, aqi := 95,
      quality := "Moderate", pm25 := 57, pm10 := 76, o3 := 38, no2 := 29,
      so2 := 19, co := 10, temperature := 28, humidity := 78,
      lastUpdated := now, source := "Mock Data" },
    { name := "Hyderabad", lat := 17.3850, lng := 78.4867, aqi := 92,
      quality := "Moderate", pm25 := 55, pm10 := 74, o3 := 37, no2 := 28,
      so2 := 18, co := 9, temperature := 30, humidity := 62,
      lastUpdated := now, source := "Mock Data" },
    { name := "Chennai", lat := 13.0827, lng := 80.2707, aqi := 78,
      quality := "Moderate", pm25 := 47, pm10 := 62, o3 := 31, no2 := 23,
      so2 := 16, co := 8, temperature := 35, humidity := 68,
      lastUpdated := now, source := "Mock Data" },
    { name := "Bengaluru", lat := 12.9716, lng := 77.5946, aqi := 85,
      quality := "Moderate", pm25 := 51, pm10 := 68, o3 := 34, no2 := 26,
      so2 := 17, co := 9, temperature := 26, humidity := 55,
      lastUpdated := now, source := "Mock Data" } ]

/-- The state of the `LeafletMap` component that `fetchCitiesData`
touches (LeafletMap.tsx lines 39-41), plus a count of the network
requests issued, used to state the coalescing claim. -/
structure MapState where
  cities : List CityData
  loading : Bool
  lastUpdated : String
  requests : Nat
deriving DecidableEq

/-- The initial `LeafletMap` state: empty dataset, `loading` true
(useState(true)), no request issued yet. -/
def initMapState (now : String) : MapState :=
  { cities := [], loading := true, lastUpdated := now, requests := 0 }

/-- The synchronous prefix of `fetchCitiesData` (LeafletMap.tsx lines
90-92): sets `loading` and issues the network request.  The function
performs no in-flight check before fetching. -/
def fetchStart (s : MapState) : MapState :=
  { s with loading := true, requests := s.requests + 1 }

/-- The continuation of `fetchCitiesData` once the awaited fetch/parse
settles (LeafletMap.tsx lines 93-109): on success the parsed records
replace the dataset and the timestamp is recorded; on any thrown error
(network failure or malformed payload) the `catch` branch installs the
fallback dataset; `finally` clears `loading`.  Totality of this
function models that no exception escapes `fetchCitiesData`. -/
def fetchComplete (result : Except Unit (List CityData)) (now : String)
    (s : MapState) : MapState :=
  match result with
  | .ok data => { s with cities := data, lastUpdated := now, loading := false }
  | .error _ => { s with cities := fallbackCities now, loading := false }

/-- A whole `fetchCitiesData` call whose awaited fetch settles with
`result` at time `now`. -/
def fetchCitiesData (result : Except Unit (List CityData)) (now : String)
    (s : MapState) : MapState :=
  fetchComplete result now (fetchStart s)

/-- A tick of the 5-minute polling interval (LeafletMap.tsx line 115):
`setInterval(fetchCitiesData, ...)` starts a fetch unconditionally. -/
def scheduledRefresh (s : MapState) : MapState := fetchStart s

/-- A click of the Refresh button (LeafletMap.tsx lines 170-177): the
button carries `disabled={loading}`, so the click starts a fetch only
when no fetch is loading. -/
def clickRefresh (s : MapState) : MapState :=
  if s.loading then s else fetchStart s

/-- C2 counterexample: after a failed fetch, some record of the
installed dataset is not tagged `source = "fallback"` (the code tags
the fallback records `"Mock Data"`). -/
theorem fetch_failure_fallback_cex :
    ∃ c ∈ (fetchCitiesData (Except.error ()) "t0" (initMapState "t0")).cities,
      c.source ≠ "fallback" := by decide

/-- C2 amended: after any failed fetch the dataset is the fixed
non-empty fallback set, every record of which is tagged
`source = "Mock Data"`, and `loading` is cleared; the function is total,
so no exception reaches the caller. -/
theorem fetch_failure_fallback (s : MapState) (now : String) :
    (fetchCitiesData (Except.error ()) now s).cities ≠ []
    ∧ (∀ c ∈ (fetchCitiesData (Except.error ()) now s).cities, c.source = "Mock Data")
    ∧ (fetchCitiesData (Except.error ()) now s).loading = false := by
  refine ⟨by simp [fetchCitiesData, fetchComplete, fetchStart, fallbackCities], ?_, rfl⟩
  intro c hc
  simp only [fetchCitiesData, fetchComplete, fetchStart, fallbackCities,
    List.mem_cons, List.not_mem_nil, or_false] at hc
  rcases hc with rfl | rfl | rfl | rfl | rfl <;> rfl

/-- C3 counterexample: the first fetch leaves a fetch in flight, and a
second `fetchCitiesData` call started while it is in flight issues a
second network request — there is no in-flight coalescing guard. -/
theorem refresh_no_coalescing_cex :
    (fetchStart (initMapState "t0")).loading = true
    ∧ (fetchStart (fetchStart (initMapState "t0"))).requests = 2 := by decide

/-- C3 amended: while a fetch is in flight, a manual Refresh click is
suppressed by the disabled button and issues no request, but a
scheduled poll still issues a new request. -/
theorem refresh_inflight (s : MapState) (h : s.loading = true) :
    clickRefresh s = s ∧ (scheduledRefresh s).requests = s.requests + 1 := by
  constructor
  · simp [clickRefresh, h]
  · rfl

/-- Witness for the amended C3 at the state right after the initial
fetch starts. -/
theorem refresh_inflight_witness :
    clickRefresh (fetchStart (initMapState "t0")) = fetchStart (initMapState "t0")
    ∧ (scheduledRefresh (fetchStart (initMapState "t0"))).requests
        = (fetchStart (initMapState "t0")).requests + 1 :=
  refresh_inflight (fetchStart (initMapState "t0")) rfl
